import Mathlib

/-!
Verification of the size-distribution combination engine of `py_aps_smps`
(`py_aps_smps/lib/sd_processing/structure.py`), as a shallow embedding.

Conventions of the embedding:
* pandas DataFrames of size bins become `List (Row α)` over a linear ordered
  field `α`; after every pandas `reset_index(drop=True)` the integer row labels
  coincide with list positions, and every label-based operation of the source
  (`.loc`, `idxmax`, `drop`, label slices) happens after such a reset, so list
  positions model labels faithfully.
* float `NaN` (a column value missing for freshly created bins) is modelled by
  `Option α`; pandas `mean`/`sum` skip NaN, modelled by `List.filterMap`.
* `log10` and `10 ** _` are kept as function parameters `log10 exp10 : α → α`
  of the embedding; theorems about the real program instantiate `α := ℝ`,
  `log10 := Real.logb 10`, `exp10 := fun x => (10 : ℝ) ^ x`.
* a raising Python path (failed `assert`, `max()`/`min()` of an empty
  sequence, mismatched column lengths) is modelled by `Option.none`.
-/

namespace ApsSmps

/-- Provenance tag of one bin: the `flag` column of the source
(values `smps`, `aps`, `interpolated`, `merged`). -/
inductive Flag where
  | smps : Flag
  | aps : Flag
  | interpolated : Flag
  | merged : Flag
deriving DecidableEq, Repr

/-- One row of a size-distribution DataFrame: columns `flag`, `dpes`
(bin center diameter), `dpes_lower`, `dpes_upper`, `dn` (count) and
`dndlogd` (density).  `dn` and `dndlogd` are `Option` because freshly
created interpolation bins carry NaN there until assigned. -/
structure Row (α : Type) where
  flag : Flag
  dpes : α
  dpes_lower : α
  dpes_upper : α
  dn : Option α
  dndlogd : Option α
deriving DecidableEq, Repr

variable {α : Type} [LinearOrderedField α]

/-- Python builtin `max` over one numeric column of a frame:
`none` exactly when the frame is empty (Python raises `ValueError`). -/
def colMax (f : Row α → α) : List (Row α) → Option α
  | [] => none
  | r :: rs =>
    match colMax f rs with
    | none => some (f r)
    | some m => some (max (f r) m)

/-- Python builtin `min` over one numeric column of a frame. -/
def colMin (f : Row α → α) : List (Row α) → Option α
  | [] => none
  | r :: rs =>
    match colMin f rs with
    | none => some (f r)
    | some m => some (min (f r) m)

/-- `List.filter` with a propositional predicate, mirroring boolean-mask row
selection on a DataFrame (keeps original order). -/
def filterP (p : Row α → Prop) [DecidablePred p] : List (Row α) → List (Row α)
  | [] => []
  | r :: rs => if p r then r :: filterP p rs else filterP p rs

/-- Boolean-mask selection on an enumerated frame, keeping the original
integer labels of the selected rows (as pandas mask indexing does). -/
def filterIdxP (p : Row α → Prop) [DecidablePred p] :
    List (Nat × Row α) → List (Nat × Row α)
  | [] => []
  | ir :: rs => if p ir.2 then ir :: filterIdxP p rs else filterIdxP p rs

/-- Replace the row at label `i` by `f` applied to the current row
(model of column assignments through `sd.loc[i, col] = _`). -/
def updateRow : Nat → (Row α → Row α) → List (Row α) → List (Row α)
  | _, _, [] => []
  | 0, f, r :: rs => f r :: rs
  | n + 1, f, r :: rs => r :: updateRow n f rs

/-- Ordering of rows by the `dpes` column, the sort key of
`sort_values('dpes')`. -/
def leDpes (a b : Row α) : Prop := a.dpes ≤ b.dpes

instance : DecidableRel (leDpes (α := α)) :=
  fun a b => inferInstanceAs (Decidable (a.dpes ≤ b.dpes))

instance : IsTotal (Row α) leDpes := ⟨fun a b => le_total a.dpes b.dpes⟩

instance : IsTrans (Row α) leDpes := ⟨fun _ _ _ h h' => le_trans h h'⟩

/-- `sort_values('dpes').reset_index(drop=True)`: ascending sort on the
`dpes` column (ties in an order the source leaves unspecified). -/
def sortByDpes (l : List (Row α)) : List (Row α) := List.insertionSort leDpes l

/-- `structure.py` line 21, `calc_bin_boundaries`: lower and upper bin
boundary from the bin center and the channel resolution (bins per decade);
`exp10 x` stands for `10 ** x`. -/
def calc_bin_boundaries (exp10 : α → α) (bin_mean_diameter channel_resolution : α) :
    α × α :=
  (2 * bin_mean_diameter / (exp10 (1 / channel_resolution) + 1),
   2 * bin_mean_diameter / (exp10 (-1 / channel_resolution) + 1))

/-- `structure.py` line 16, `get_channel_resolution`: bin count divided by the
log-decade span of the `dpes` column; fails on an empty frame. -/
def get_channel_resolution (log10 : α → α) (data : List (Row α)) : Option α := do
  let mx ← colMax (fun r => r.dpes) data
  let mn ← colMin (fun r => r.dpes) data
  pure ((data.length : α) / (log10 mx - log10 mn))

/-- Enumerate a frame with labels starting at `j` (labels equal positions
after any `reset_index(drop=True)`). -/
def enumFromN (j : Nat) : List (Row α) → List (Nat × Row α)
  | [] => []
  | r :: rs => (j, r) :: enumFromN (j + 1) rs

/-- Label of the first row attaining the maximum of `f` among the rows after
`best`, the running first maximum so far. -/
def argmaxFrom (f : Row α → α) (best : Nat × α) : List (Nat × Row α) → Nat
  | [] => best.1
  | ir :: rs =>
    if f ir.2 > best.2 then argmaxFrom f (ir.1, f ir.2) rs else argmaxFrom f best rs

/-- pandas `idxmax` of column `f` over the rows selected by the mask `p`:
the original label of the first row attaining the maximum; `none` on an
empty selection (pandas raises `ValueError`). -/
def idxmaxP (p : Row α → Prop) [DecidablePred p] (f : Row α → α)
    (l : List (Row α)) : Option Nat :=
  (filterIdxP p (enumFromN 0 l)).head?.elim none fun ir =>
    some (argmaxFrom f (ir.1, f ir.2) (filterIdxP p (enumFromN 0 l)).tail)

/-- Companion of `argmaxFrom` for minima. -/
def argminFrom (f : Row α → α) (best : Nat × α) : List (Nat × Row α) → Nat
  | [] => best.1
  | ir :: rs =>
    if f ir.2 < best.2 then argminFrom f (ir.1, f ir.2) rs else argminFrom f best rs

/-- pandas `idxmin` of column `f` over the rows selected by the mask `p`. -/
def idxminP (p : Row α → Prop) [DecidablePred p] (f : Row α → α)
    (l : List (Row α)) : Option Nat :=
  (filterIdxP p (enumFromN 0 l)).head?.elim none fun ir =>
    some (argminFrom f (ir.1, f ir.2) (filterIdxP p (enumFromN 0 l)).tail)

/-- Rows whose position, counted from `j`, lies in the label range `a..b`. -/
def sliceFrom (j : Nat) (a b : Int) : List (Row α) → List (Row α)
  | [] => []
  | r :: rs =>
    if a ≤ (j : Int) ∧ (j : Int) ≤ b then r :: sliceFrom (j + 1) a b rs
    else sliceFrom (j + 1) a b rs

/-- pandas label slice `.loc[a : b]` on a frame whose labels are its
positions: both endpoints inclusive, out-of-range labels clipped. -/
def sliceRows (a b : Int) (l : List (Row α)) : List (Row α) :=
  sliceFrom 0 a b l

/-- Present values of a series of possibly missing values. -/
def knowns : List (Option α) → List α
  | [] => []
  | some v :: vs => v :: knowns vs
  | none :: vs => knowns vs

/-- Arithmetic mean of a list of values, `none` when the list is empty. -/
def meanList (vs : List α) : Option α :=
  if vs = [] then none else some (vs.sum / (vs.length : α))

/-- pandas `Series.mean()` with default `skipna=True`: arithmetic mean of the
present values, `none` (NaN) when no value is present. -/
def colMeanOpt (vals : List (Option α)) : Option α :=
  meanList (knowns vals)

/-- Index-value pairs of the present values of an indexed series. -/
def knownPts : List (α × Option α) → List (α × α)
  | [] => []
  | (x, some v) :: ps => (x, v) :: knownPts ps
  | (_, none) :: ps => knownPts ps

/-- Last element of a list, `none` when empty. -/
def lastK : List (α × α) → Option (α × α)
  | [] => none
  | [p] => some p
  | _ :: p :: ps => lastK (p :: ps)

/-- Interpolation sweep carrying `prev`, the last present index-value pair
seen so far: a present value stays (and becomes the new `prev`); a missing
value between two present neighbours is filled linearly in the index (as
`np.interp` does on an increasing index); a missing value after the last
present one is clamped to it; leading missing values stay missing. -/
def interpFillGo (prev : Option (α × α)) : List (α × Option α) → List (Option α)
  | [] => []
  | (x, some v) :: ps => some v :: interpFillGo (some (x, v)) ps
  | (x, none) :: ps =>
    (prev.elim none fun pv =>
      ((knownPts ps).head?).elim (some pv.2) fun nx =>
        some (pv.2 + (nx.2 - pv.2) * (x - pv.1) / (nx.1 - pv.1)))
    :: interpFillGo prev ps

/-- One-dimensional interpolation of the missing values of a series keyed by
its index column, the model of `Series.interpolate(method='index')`. -/
def interpFill (pts : List (α × Option α)) : List (Option α) :=
  interpFillGo none pts

/-- Write `vals` into the `dndlogd` column over the contiguous label range
`lo..hi`, positions counted from `j`, consuming one value per row inside
the range. -/
def writeSliceFrom (j lo hi : Nat) (vals : List (Option α)) :
    List (Row α) → List (Row α)
  | [] => []
  | r :: rs =>
    if j < lo then r :: writeSliceFrom (j + 1) lo hi vals rs
    else if j ≤ hi then
      (vals.head?.elim r fun v => { r with dndlogd := v })
        :: writeSliceFrom (j + 1) lo hi vals.tail rs
    else r :: writeSliceFrom (j + 1) lo hi vals rs

/-- Assign the vector `vals` to the `dndlogd` column of the label range
`lo..hi`, the model of `sd.loc[lo : hi, 'dndlogd'] = vals`. -/
def writeDndlogdSlice (lo hi : Nat) (vals : List (Option α))
    (l : List (Row α)) : List (Row α) :=
  writeSliceFrom 0 lo hi vals l

/-- Overwrite `dndlogd` of the row at position `i`. -/
def setDndlogdAt (i : Nat) (v : Option α) (l : List (Row α)) : List (Row α) :=
  updateRow i (fun r => { r with dndlogd := v }) l

/-- `structure.py` lines 90-115, `interpolate_dndlogd_gap`: smooth the two
edge densities over inclusive label windows, interpolate the density of the
gap slice keyed by `dpes`, write the slice back and restore the two edge
rows to their original densities. -/
def interpolate_dndlogd_gap (sd_gapped : List (Row α))
    (edge_average_window : Nat := 3) : Option (List (Row α)) := do
  let iMin ← idxmaxP (fun r => r.flag = Flag.smps) (fun r => r.dpes_upper) sd_gapped
  let iMax ← idxminP (fun r => r.flag = Flag.aps) (fun r => r.dpes_lower) sd_gapped
  let rMin ← sd_gapped[iMin]?
  let rMax ← sd_gapped[iMax]?
  let edge_bin_min_dndlogd_0 := rMin.dndlogd
  let edge_bin_max_dndlogd_0 := rMax.dndlogd
  let avgLow := colMeanOpt
    (((sliceRows ((iMin : Int) - (edge_average_window : Int)) (iMin : Int) sd_gapped)).map
      (fun r => r.dndlogd))
  let avgHigh := colMeanOpt
    (((sliceRows (iMax : Int) ((iMax : Int) + (edge_average_window : Int)) sd_gapped)).map
      (fun r => r.dndlogd))
  let slice0 := sliceRows (iMin : Int) (iMax : Int) sd_gapped
  if slice0.isEmpty then none
  else
    let slice1 := setDndlogdAt 0 avgLow slice0
    let slice2 := setDndlogdAt (slice1.length - 1) avgHigh slice1
    let vals := interpFill (slice2.map fun r => (r.dpes, r.dndlogd))
    let sd1 := writeDndlogdSlice iMin iMax vals sd_gapped
    let sd2 := updateRow iMin (fun r => { r with dndlogd := edge_bin_min_dndlogd_0 }) sd1
    let sd3 := updateRow iMax (fun r => { r with dndlogd := edge_bin_max_dndlogd_0 }) sd2
    pure sd3

/-- Python builtin `round` on a float: round half to even at exact halves,
nearest integer otherwise. -/
def pyRound [FloorRing α] (x : α) : Int :=
  if Int.fract x = 1 / 2 then 2 * ⌊x / 2 + 1 / 2⌋ else round x

/-- `structure.py` lines 72-75, `get_interpol_resolution`: Python float floor
division `//` of the summed channel resolutions by 2. -/
def get_interpol_resolution [FloorRing α] (log10 : α → α)
    (sd_smps sd_aps : List (Row α)) : Option α := do
  let r1 ← get_channel_resolution log10 sd_smps
  let r2 ← get_channel_resolution log10 sd_aps
  pure ((⌊(r1 + r2) / 2⌋ : Int) : α)

/-- `structure.py` lines 77-88, `get_bin_boundaries_in_interval`:
`bin_num = round(res * decades)` lower boundaries from
`np.logspace(log10 x_start, log10 x_end, num=bin_num, endpoint=False)`
(`10 ** (log10 x_start + i * step)` with `step = decades / bin_num`), upper
boundaries `np.append(lower[1:], x_end)`; `none` when `bin_num` is negative
(`np.logspace` raises) or when the two boundary vectors end up with
different lengths (the `DataFrame` constructor at line 125 raises). -/
def get_bin_boundaries_in_interval [FloorRing α] (log10 exp10 : α → α)
    (x_start x_end res : α) : Option (List α × List α) :=
  let decades := log10 x_end - log10 x_start
  let bin_num := pyRound (res * decades)
  if bin_num < 0 then none
  else
    let n := bin_num.toNat
    let lower := (List.range n).map fun i =>
      exp10 (log10 x_start + (i : α) * ((log10 x_end - log10 x_start) / (n : α)))
    let upper := lower.tail ++ [x_end]
    if lower.length = upper.length then some (lower, upper) else none

/-- `structure.py` lines 123-128: interpolation bins from their boundary
vectors, centers at the arithmetic midpoint, `dn` and `dndlogd` unset. -/
def interpolatedBins (lower upper : List α) : List (Row α) :=
  List.zipWith (fun l u => ⟨Flag.interpolated, (l + u) / 2, l, u, none, none⟩)
    lower upper

/-- `structure.py` lines 117-134, the gap-interpolation branch: build the
bridging bin grid, concatenate, sort by `dpes` and re-index, interpolate
`dndlogd` across the gap, then recompute `dn` of EVERY row of the frame as
`dndlogd * (log10 dpes_upper - log10 dpes_lower)` (line 134 assigns the
whole `dn` column). -/
def gapBranch [FloorRing α] (log10 exp10 : α → α)
    (sd_aps sd_smps sd_combined : List (Row α)) : Option (List (Row α)) := do
  let startX ← colMax (fun r => r.dpes_upper) sd_smps
  let endX ← colMin (fun r => r.dpes_lower) sd_aps
  let res ← get_interpol_resolution log10 sd_smps sd_aps
  let bnds ← get_bin_boundaries_in_interval log10 exp10 startX endX res
  let sd1 := sortByDpes (sd_combined ++ interpolatedBins bnds.1 bnds.2)
  let sd2 ← interpolate_dndlogd_gap sd1 3
  pure (sd2.map fun r =>
    { r with dn := r.dndlogd.map fun d =>
        d * (log10 r.dpes_upper - log10 r.dpes_lower) })

/-- Python builtin `min` of one column over an enumerated snapshot. -/
def colMinIdx (f : Row α → α) : List (Nat × Row α) → Option α
  | [] => none
  | ir :: rs =>
    match colMinIdx f rs with
    | none => some (f ir.2)
    | some m => some (min (f ir.2) m)

/-- Python builtin `max` of one column over an enumerated snapshot. -/
def colMaxIdx (f : Row α → α) : List (Nat × Row α) → Option α
  | [] => none
  | ir :: rs =>
    match colMaxIdx f rs with
    | none => some (f ir.2)
    | some m => some (max (f ir.2) m)

/-- `structure.py` lines 156-171, merge of the left-edge smps bin into the
single overlapped aps bin `t` (label and snapshot row), extending the aps
bin down to the smps lower boundary and recentering it; the new `dn` adds
each instrument's exclusive-width share and half of each one's
overlap-width share. -/
def leftEdgeUpdate (sd : List (Row α)) (t : Nat × Row α) (s : Row α) :
    List (Row α) :=
  let smps_bin_width := s.dpes_upper - s.dpes_lower
  let aps_bin_width := t.2.dpes_upper - t.2.dpes_lower
  let smps_only_width := t.2.dpes_lower - s.dpes_lower
  let overlap_width := s.dpes_upper - t.2.dpes_lower
  let aps_only_width := t.2.dpes_upper - s.dpes_upper
  updateRow t.1 (fun r =>
    { r with
      dpes_lower := s.dpes_lower
      dpes_upper := t.2.dpes_upper
      dpes := (s.dpes_lower + t.2.dpes_upper) / 2
      dn := Option.map₂ (fun sdn adn =>
        sdn * (smps_only_width / smps_bin_width)
          + adn * (aps_only_width / aps_bin_width)
          + (1 / 2 * sdn * overlap_width / smps_bin_width
             + 1 / 2 * adn * overlap_width / aps_bin_width)) s.dn t.2.dn
      flag := Flag.merged }) sd

/-- `structure.py` lines 180-190, merge of an smps bin embraced by one aps
bin `t` (label and snapshot row): boundaries and center rewritten with the
snapshot values, count from the width-weighted average formula. -/
def containedUpdate (sd : List (Row α)) (t : Nat × Row α) (s : Row α) :
    List (Row α) :=
  let smps_bin_width := s.dpes_upper - s.dpes_lower
  let aps_bin_width := t.2.dpes_upper - t.2.dpes_lower
  updateRow t.1 (fun r =>
    { r with
      dpes_lower := t.2.dpes_lower
      dpes_upper := t.2.dpes_upper
      dpes := t.2.dpes
      dn := Option.map₂ (fun adn sdn =>
        adn * (aps_bin_width - smps_bin_width) / aps_bin_width
          + (adn * (smps_bin_width / aps_bin_width) + sdn) / 2) t.2.dn s.dn
      flag := Flag.merged }) sd

/-- `structure.py` lines 196-209, straddle merge into the first of the two
overlapped aps bins. -/
def straddleUpdateFirst (sd : List (Row α)) (t : Nat × Row α) (s : Row α) :
    List (Row α) :=
  let smps_bin_width := s.dpes_upper - s.dpes_lower
  let aps_bin_width := t.2.dpes_upper - t.2.dpes_lower
  let aps_only_width := s.dpes_lower - t.2.dpes_lower
  let overlap_width := t.2.dpes_upper - s.dpes_lower
  updateRow t.1 (fun r =>
    { r with
      dpes_lower := t.2.dpes_lower
      dpes_upper := t.2.dpes_upper
      dpes := t.2.dpes
      dn := Option.map₂ (fun adn sdn =>
        adn * (aps_only_width / aps_bin_width)
          + (adn * (overlap_width / aps_bin_width)
             + sdn * (overlap_width / smps_bin_width)) / 2) t.2.dn s.dn
      flag := Flag.merged }) sd

/-- `structure.py` lines 213-226, straddle merge into the second of the two
overlapped aps bins. -/
def straddleUpdateSecond (sd : List (Row α)) (t : Nat × Row α) (s : Row α) :
    List (Row α) :=
  let smps_bin_width := s.dpes_upper - s.dpes_lower
  let aps_bin_width := t.2.dpes_upper - t.2.dpes_lower
  let aps_only_width := t.2.dpes_upper - s.dpes_upper
  let overlap_width := s.dpes_upper - t.2.dpes_lower
  updateRow t.1 (fun r =>
    { r with
      dpes_lower := t.2.dpes_lower
      dpes_upper := t.2.dpes_upper
      dpes := t.2.dpes
      dn := Option.map₂ (fun adn sdn =>
        adn * (aps_only_width / aps_bin_width)
          + (adn * (overlap_width / aps_bin_width)
             + sdn * (overlap_width / smps_bin_width)) / 2) t.2.dn s.dn
      flag := Flag.merged }) sd

/-- `structure.py` lines 148-230, the merge loop over the overlapping smps
bins: `apsOv` and the smps list are the pre-loop snapshots (pandas
boolean-mask copies), `sd` the frame being mutated; reads of the aps bin
always come from the snapshot, so a later merge into the same aps bin starts
again from the pre-loop count.  The `assert len(aps_bin) == 1` of line 154
is `none`; a candidate count other than 1 or 2 in the standard case falls
through with no update (lines 176-228 have no else branch), the smps bin
still being dropped afterwards. -/
def mergeLoop (apsOv : List (Nat × Row α)) :
    List (Nat × Row α) → List (Row α) → Option (List (Row α))
  | [], sd => some sd
  | (_, s) :: rest, sd => do
    let mnO ← colMinIdx (fun r => r.dpes_lower) apsOv
    let sd1 ←
      if s.dpes_lower < mnO then
        match filterIdxP (fun r => s.dpes_upper > r.dpes_lower) apsOv with
        | [t] => some (leftEdgeUpdate sd t s)
        | _ => none
      else do
        let mxO ← colMaxIdx (fun r => r.dpes_upper) apsOv
        if s.dpes_lower > mnO ∧ s.dpes_upper < mxO then
          match filterIdxP
              (fun r => s.dpes_lower < r.dpes_upper ∧ s.dpes_upper > r.dpes_lower)
              apsOv with
          | [t] => some (containedUpdate sd t s)
          | [t1, t2] => some (straddleUpdateSecond (straddleUpdateFirst sd t1 s) t2 s)
          | _ => some sd
        else some sd
    mergeLoop apsOv rest sd1

/-- Remove the rows whose position, counted from `j`, is listed in `idxs`. -/
def dropIdxFrom (j : Nat) (idxs : List Nat) : List (Row α) → List (Row α)
  | [] => []
  | r :: rs =>
    if j ∈ idxs then dropIdxFrom (j + 1) idxs rs
    else r :: dropIdxFrom (j + 1) idxs rs

/-- pandas `drop(labels)` on a frame whose labels are its positions. -/
def dropIdx (idxs : List Nat) (l : List (Row α)) : List (Row α) :=
  dropIdxFrom 0 idxs l

/-- `structure.py` lines 137-233, the overlap-merge branch: build the two
overlap snapshots, fold the merge loop over the overlapping smps bins, drop
all of them (`merged_indices` collects every looped smps label at line 230,
unconditionally), sort by `dpes` and re-index. -/
def mergeBranch (sd : List (Row α)) : Option (List (Row α)) := do
  let mnAps ← colMin (fun r => r.dpes_lower) (filterP (fun r => r.flag = Flag.aps) sd)
  let mxSmps ← colMax (fun r => r.dpes_upper) (filterP (fun r => r.flag = Flag.smps) sd)
  let smpsOv := filterIdxP (fun r => r.flag = Flag.smps ∧ r.dpes_upper > mnAps)
    (enumFromN 0 sd)
  let apsOv := filterIdxP (fun r => r.flag = Flag.aps ∧ r.dpes_lower < mxSmps)
    (enumFromN 0 sd)
  let sd1 ← mergeLoop apsOv smpsOv sd
  pure (sortByDpes (dropIdx (smpsOv.map fun ir => ir.1) sd1))

/-- Modelled from the spec: `calc_dXdlogd_from_dX` lives in
`py_aps_smps/lib/sd_processing/content.py`, which is not part of the
sources at hand; the spec describes the density-normalization primitive as
`density = count / logWidth` with per-bin boundaries, i.e.
`dn / (log10 upper - log10 lower)`. -/
def calc_dXdlogd_from_dX (log10 : α → α) (dn : Option α) (lower upper : α) :
    Option α :=
  dn.map fun d => d / (log10 upper - log10 lower)

/-- `structure.py` lines 29-239, `combine_SMPS_APS_sd`: tag the inputs,
concatenate smps-then-aps and re-index, classify the range relationship
with builtin `max`/`min` (raising on an empty input), run the
gap-interpolation and overlap-merge branches as flags and classification
dictate, then recompute `dndlogd` for every row whose flag is neither
`smps` nor `aps` (lines 235-238). -/
def combine_SMPS_APS_sd [FloorRing α] (log10 exp10 : α → α)
    (sd_aps sd_smps : List (Row α)) (merge_overlap interpolate_gap : Bool) :
    Option (List (Row α)) := do
  let aps := sd_aps.map fun r => { r with flag := Flag.aps }
  let smps := sd_smps.map fun r => { r with flag := Flag.smps }
  let sd_combined := smps ++ aps
  let mxS ← colMax (fun r => r.dpes_upper) smps
  let mnA ← colMin (fun r => r.dpes_lower) aps
  let sd1 ←
    if interpolate_gap ∧ mxS < mnA then gapBranch log10 exp10 aps smps sd_combined
    else pure sd_combined
  let sd2 ←
    if merge_overlap ∧ mxS > mnA then mergeBranch sd1
    else pure sd1
  pure (sd2.map fun r =>
    if r.flag ≠ Flag.smps ∧ r.flag ≠ Flag.aps then
      { r with dndlogd := calc_dXdlogd_from_dX log10 r.dn r.dpes_lower r.dpes_upper }
    else r)

/-- Sum of the `dn` column, pandas `sum()` semantics (missing values
skipped). -/
def sumDn (l : List (Row α)) : α :=
  (knowns (l.map fun r => r.dn)).sum

end ApsSmps

namespace ApsSmps

/-- C7: over `ℝ` with the genuine `10 ^ _`, for every positive center and
positive resolution the computed boundaries satisfy
`lower < center < upper` and `upper / lower = 10 ^ (1 / resolution)`. -/
theorem calc_bin_boundaries_spec (c res : ℝ) (hc : 0 < c) (hres : 0 < res) :
    (calc_bin_boundaries (fun x => (10 : ℝ) ^ x) c res).1 < c ∧
    c < (calc_bin_boundaries (fun x => (10 : ℝ) ^ x) c res).2 ∧
    (calc_bin_boundaries (fun x => (10 : ℝ) ^ x) c res).2 /
      (calc_bin_boundaries (fun x => (10 : ℝ) ^ x) c res).1 =
      (10 : ℝ) ^ (1 / res) := by
  have hb : (1 : ℝ) < 10 := by norm_num
  have ht : 1 < (10 : ℝ) ^ (1 / res) := by
    rw [Real.one_lt_rpow_iff_of_pos (by norm_num)]
    exact Or.inl ⟨hb, by positivity⟩
  have htpos : 0 < (10 : ℝ) ^ (1 / res) := lt_trans one_pos ht
  have hneg : (10 : ℝ) ^ (-1 / res) = ((10 : ℝ) ^ (1 / res))⁻¹ := by
    rw [neg_div, Real.rpow_neg (by norm_num)]
  have hinv : (10 : ℝ) ^ (-1 / res) < 1 := by
    rw [hneg]
    exact inv_lt_one_of_one_lt₀ ht
  have hinvpos : 0 < (10 : ℝ) ^ (-1 / res) := by
    rw [hneg]; positivity
  constructor
  · show 2 * c / ((10 : ℝ) ^ (1 / res) + 1) < c
    rw [div_lt_iff₀ (by linarith)]
    nlinarith
  constructor
  · show c < 2 * c / ((10 : ℝ) ^ (-1 / res) + 1)
    rw [lt_div_iff₀ (by linarith)]
    nlinarith
  · show 2 * c / ((10 : ℝ) ^ (-1 / res) + 1) / (2 * c / ((10 : ℝ) ^ (1 / res) + 1)) =
      (10 : ℝ) ^ (1 / res)
    rw [hneg]
    have h1 : ((10 : ℝ) ^ (1 / res))⁻¹ + 1 ≠ 0 := by positivity
    have h2 : (10 : ℝ) ^ (1 / res) + 1 ≠ 0 := by positivity
    field_simp
    ring

/-- Witness for C7 at `c = 1`, `res = 1`. -/
theorem calc_bin_boundaries_spec_witness :
    0 < (1 : ℝ) ∧ 0 < (1 : ℝ) ∧
    ((calc_bin_boundaries (fun x => (10 : ℝ) ^ x) 1 1).1 < 1 ∧
     1 < (calc_bin_boundaries (fun x => (10 : ℝ) ^ x) 1 1).2 ∧
     (calc_bin_boundaries (fun x => (10 : ℝ) ^ x) 1 1).2 /
       (calc_bin_boundaries (fun x => (10 : ℝ) ^ x) 1 1).1 =
       (10 : ℝ) ^ ((1 : ℝ) / 1)) :=
  ⟨one_pos, one_pos, calc_bin_boundaries_spec 1 1 one_pos one_pos⟩

/-- `updateRow` preserves the length of a frame. -/
theorem length_updateRow {α : Type} [LinearOrderedField α] (i : Nat)
    (f : Row α → Row α) (l : List (Row α)) :
    (updateRow i f l).length = l.length := by
  induction l generalizing i with
  | nil => simp [updateRow]
  | cons r rs ih =>
    cases i with
    | zero => simp [updateRow]
    | succ n => simp [updateRow, ih]

/-- Evaluation of `interpolate_dndlogd_gap` on a three-row gapped frame with
edge centers `1` and `100`, an interior bin at center `x`, and arbitrary edge
densities: the interior density is filled linearly in the raw `dpes` index. -/
theorem interp_gap_three_row_eval {α : Type} [LinearOrderedField α]
    (x d0 d2 l0 u0 l1 u1 l2 u2 : α) (n0 n2 : Option α) :
    interpolate_dndlogd_gap
      [⟨Flag.smps, 1, l0, u0, n0, some d0⟩,
       ⟨Flag.interpolated, x, l1, u1, none, none⟩,
       ⟨Flag.aps, 100, l2, u2, n2, some d2⟩] 3 =
    some [⟨Flag.smps, 1, l0, u0, n0, some d0⟩,
          ⟨Flag.interpolated, x, l1, u1, none,
            some (d0 + (d2 - d0) * (x - 1) / (100 - 1))⟩,
          ⟨Flag.aps, 100, l2, u2, n2, some d2⟩] := by
  simp [interpolate_dndlogd_gap, idxmaxP, idxminP, filterIdxP, enumFromN,
    argmaxFrom, argminFrom, sliceRows, sliceFrom, colMeanOpt, meanList, knowns,
    setDndlogdAt, updateRow, interpFill, interpFillGo,
    knownPts, lastK, writeDndlogdSlice, writeSliceFrom, Option.bind]

set_option maxHeartbeats 2000000 in
/-- Evaluation of `interpolate_dndlogd_gap` on a nine-row gapped frame (four
bins on each side of one interior bin) with arbitrary densities: each edge
anchor is the mean of the four densities of the inclusive window
`.loc[edge-3 : edge]` resp. `.loc[edge : edge+3]`, and the interior density
is interpolated linearly in `dpes` between these anchors. -/
theorem interp_gap_nine_row_eval {α : Type} [LinearOrderedField α]
    (d0 d1 d2 d3 d5 d6 d7 d8 : α) :
    interpolate_dndlogd_gap
      [⟨Flag.smps, 1, 1, 2, some 1, some d0⟩,
       ⟨Flag.smps, 2, 2, 3, some 1, some d1⟩,
       ⟨Flag.smps, 3, 3, 4, some 1, some d2⟩,
       ⟨Flag.smps, 10, 4, 11, some 1, some d3⟩,
       ⟨Flag.interpolated, 20, 11, 29, none, none⟩,
       ⟨Flag.aps, 30, 29, 31, some 1, some d5⟩,
       ⟨Flag.aps, 40, 39, 41, some 1, some d6⟩,
       ⟨Flag.aps, 50, 49, 51, some 1, some d7⟩,
       ⟨Flag.aps, 60, 59, 61, some 1, some d8⟩] 3 =
    some [⟨Flag.smps, 1, 1, 2, some 1, some d0⟩,
       ⟨Flag.smps, 2, 2, 3, some 1, some d1⟩,
       ⟨Flag.smps, 3, 3, 4, some 1, some d2⟩,
       ⟨Flag.smps, 10, 4, 11, some 1, some d3⟩,
       ⟨Flag.interpolated, 20, 11, 29, none,
         some ((d0 + d1 + d2 + d3) / 4 +
           ((d5 + d6 + d7 + d8) / 4 - (d0 + d1 + d2 + d3) / 4) * (20 - 10) / (30 - 10))⟩,
       ⟨Flag.aps, 30, 29, 31, some 1, some d5⟩,
       ⟨Flag.aps, 40, 39, 41, some 1, some d6⟩,
       ⟨Flag.aps, 50, 49, 51, some 1, some d7⟩,
       ⟨Flag.aps, 60, 59, 61, some 1, some d8⟩] := by
  simp +decide [interpolate_dndlogd_gap, idxmaxP, idxminP, filterIdxP, enumFromN,
    argmaxFrom, argminFrom, sliceRows, sliceFrom, colMeanOpt, meanList, knowns,
    setDndlogdAt, updateRow, interpFill, interpFillGo,
    knownPts, lastK, writeDndlogdSlice, writeSliceFrom, Option.bind, length_updateRow]
  norm_num [updateRow, knowns, interpFillGo, knownPts, lastK, writeSliceFrom,
    meanList, Option.bind]
  ring_nf
  simp

/-- C4, counterexample: on the gapped frame with smps edge bin at center `1`
(density `0`), one interior bin at center `10` and aps edge bin at center
`100` (density `1`), the code fills the interior density with `1/11`
(linear in the raw center diameter), while interpolation that is linear in
`log10` of the center — as the claim states — would give `1/2` there, since
`log10 10` is the midpoint of `log10 1` and `log10 100`. -/
theorem c4_log_linear_counterexample :
    interpolate_dndlogd_gap
      [⟨Flag.smps, 1, 1/2, 5, some 1, some 0⟩,
       ⟨Flag.interpolated, (10 : ℝ), 5, 30, none, none⟩,
       ⟨Flag.aps, 100, 30, 300, some 1, some 1⟩] 3 =
    some [⟨Flag.smps, 1, 1/2, 5, some 1, some 0⟩,
          ⟨Flag.interpolated, (10 : ℝ), 5, 30, none, some (1/11)⟩,
          ⟨Flag.aps, 100, 30, 300, some 1, some 1⟩] ∧
    (0 : ℝ) + (1 - 0) * (Real.logb 10 10 - Real.logb 10 1) /
      (Real.logb 10 100 - Real.logb 10 1) = 1/2 ∧
    (1 / 11 : ℝ) ≠ 1 / 2 := by
  refine ⟨?_, ?_, by norm_num⟩
  · have h := interp_gap_three_row_eval (α := ℝ) 10 0 1 (1/2) 5 5 30 30 300
      (some 1) (some 1)
    rw [h]
    norm_num
  · have h10 : Real.logb 10 10 = 1 := Real.logb_self_eq_one (by norm_num)
    have h100 : Real.logb 10 100 = 2 := by
      have : (100 : ℝ) = 10 ^ (2 : ℕ) := by norm_num
      rw [this, Real.logb_pow, h10]
      norm_num
    rw [h10, h100, Real.logb_one]
    norm_num

/-- C4, amended: the density of an interior Interpolated bin is obtained by
linear interpolation of density as a function of the raw `diameter_center`
(the `dpes` index of `Series.interpolate(method='index')`), not of its
`log10`, between the two smoothed edge anchors. -/
theorem c4_interior_density_linear_in_diameter {α : Type} [LinearOrderedField α]
    (x d0 d2 l0 u0 l1 u1 l2 u2 : α) (n0 n2 : Option α)
    (_hx1 : 1 < x) (_hx2 : x < 100) :
    interpolate_dndlogd_gap
      [⟨Flag.smps, 1, l0, u0, n0, some d0⟩,
       ⟨Flag.interpolated, x, l1, u1, none, none⟩,
       ⟨Flag.aps, 100, l2, u2, n2, some d2⟩] 3 =
    some [⟨Flag.smps, 1, l0, u0, n0, some d0⟩,
          ⟨Flag.interpolated, x, l1, u1, none,
            some (d0 + (d2 - d0) * (x - 1) / (100 - 1))⟩,
          ⟨Flag.aps, 100, l2, u2, n2, some d2⟩] :=
  interp_gap_three_row_eval x d0 d2 l0 u0 l1 u1 l2 u2 n0 n2

/-- Witness for the amended C4 at `x = 10`, `d0 = 0`, `d2 = 1` over `ℚ`. -/
theorem c4_interior_density_linear_in_diameter_witness :
    (1 : ℚ) < 10 ∧ (10 : ℚ) < 100 ∧
    interpolate_dndlogd_gap
      [⟨Flag.smps, 1, 1/2, 5, some 1, some 0⟩,
       ⟨Flag.interpolated, (10 : ℚ), 5, 30, none, none⟩,
       ⟨Flag.aps, 100, 30, 300, some 1, some 1⟩] 3 =
    some [⟨Flag.smps, 1, 1/2, 5, some 1, some 0⟩,
          ⟨Flag.interpolated, (10 : ℚ), 5, 30, none,
            some (0 + (1 - 0) * (10 - 1) / (100 - 1))⟩,
          ⟨Flag.aps, 100, 30, 300, some 1, some 1⟩] :=
  ⟨by decide, by decide,
   c4_interior_density_linear_in_diameter 10 0 1 (1/2) 5 5 30 30 300
     (some 1) (some 1) (by decide) (by decide)⟩

/-- C5, counterexample: with trailing smps densities `8, 0, 0, 0` before the
gap and zero aps densities after it, the code's interior density is `1` (the
trailing anchor is the mean `2` of the four bins `.loc[edge-3 : edge]`,
halved at the interior midpoint), whereas anchors averaging exactly three
bins as the claim states (`(0+0+0)/3 = 0` on both sides) would force the
interior density `0`. -/
theorem c5_window_counterexample :
    interpolate_dndlogd_gap
      [⟨Flag.smps, 1, 1, 2, some 1, some 8⟩,
       ⟨Flag.smps, 2, 2, 3, some 1, some 0⟩,
       ⟨Flag.smps, 3, 3, 4, some 1, some 0⟩,
       ⟨Flag.smps, (10 : ℚ), 4, 11, some 1, some 0⟩,
       ⟨Flag.interpolated, 20, 11, 29, none, none⟩,
       ⟨Flag.aps, 30, 29, 31, some 1, some 0⟩,
       ⟨Flag.aps, 40, 39, 41, some 1, some 0⟩,
       ⟨Flag.aps, 50, 49, 51, some 1, some 0⟩,
       ⟨Flag.aps, 60, 59, 61, some 1, some 0⟩] 3 =
    some [⟨Flag.smps, 1, 1, 2, some 1, some 8⟩,
       ⟨Flag.smps, 2, 2, 3, some 1, some 0⟩,
       ⟨Flag.smps, 3, 3, 4, some 1, some 0⟩,
       ⟨Flag.smps, (10 : ℚ), 4, 11, some 1, some 0⟩,
       ⟨Flag.interpolated, 20, 11, 29, none, some 1⟩,
       ⟨Flag.aps, 30, 29, 31, some 1, some 0⟩,
       ⟨Flag.aps, 40, 39, 41, some 1, some 0⟩,
       ⟨Flag.aps, 50, 49, 51, some 1, some 0⟩,
       ⟨Flag.aps, 60, 59, 61, some 1, some 0⟩] ∧
    ((0 + 0 + 0) / 3 + ((0 + 0 + 0) / 3 - (0 + 0 + 0) / 3) * (20 - 10) / (30 - 10) : ℚ) = 0 ∧
    (1 : ℚ) ≠ 0 := by
  refine ⟨?_, by norm_num, by norm_num⟩
  have h := interp_gap_nine_row_eval (α := ℚ) 8 0 0 0 0 0 0 0
  rw [h]
  norm_num

/-- C5, amended: each smoothed edge anchor is the arithmetic mean of density
over `edge_average_window + 1` bins (4 with the default 3), because the
pandas label slices `.loc[edge-3 : edge]` and `.loc[edge : edge+3]` are
inclusive at both ends. -/
theorem c5_anchor_window_amended {α : Type} [LinearOrderedField α]
    (d0 d1 d2 d3 d5 d6 d7 d8 : α) :
    interpolate_dndlogd_gap
      [⟨Flag.smps, 1, 1, 2, some 1, some d0⟩,
       ⟨Flag.smps, 2, 2, 3, some 1, some d1⟩,
       ⟨Flag.smps, 3, 3, 4, some 1, some d2⟩,
       ⟨Flag.smps, 10, 4, 11, some 1, some d3⟩,
       ⟨Flag.interpolated, 20, 11, 29, none, none⟩,
       ⟨Flag.aps, 30, 29, 31, some 1, some d5⟩,
       ⟨Flag.aps, 40, 39, 41, some 1, some d6⟩,
       ⟨Flag.aps, 50, 49, 51, some 1, some d7⟩,
       ⟨Flag.aps, 60, 59, 61, some 1, some d8⟩] 3 =
    some [⟨Flag.smps, 1, 1, 2, some 1, some d0⟩,
       ⟨Flag.smps, 2, 2, 3, some 1, some d1⟩,
       ⟨Flag.smps, 3, 3, 4, some 1, some d2⟩,
       ⟨Flag.smps, 10, 4, 11, some 1, some d3⟩,
       ⟨Flag.interpolated, 20, 11, 29, none,
         some ((d0 + d1 + d2 + d3) / 4 +
           ((d5 + d6 + d7 + d8) / 4 - (d0 + d1 + d2 + d3) / 4) * (20 - 10) / (30 - 10))⟩,
       ⟨Flag.aps, 30, 29, 31, some 1, some d5⟩,
       ⟨Flag.aps, 40, 39, 41, some 1, some d6⟩,
       ⟨Flag.aps, 50, 49, 51, some 1, some d7⟩,
       ⟨Flag.aps, 60, 59, 61, some 1, some d8⟩] :=
  interp_gap_nine_row_eval d0 d1 d2 d3 d5 d6 d7 d8

/-- Evaluation of the combiner on one aps bin `[tl, tu]` with count `a` and
one strictly contained smps bin `[fl, fu]` with count `b`: the merge branch
runs the single-containment case, drops the smps bin and returns the merged
aps bin with the width-weighted count and its recomputed density. -/
theorem combine_contained_eval {α : Type} [LinearOrderedField α] [FloorRing α]
    (log10 exp10 : α → α) (cf ct fl fu tl tu a b : α) (da db : Option α) (ig : Bool)
    (h1 : tl < fl) (h2 : fl < fu) (h3 : fu < tu) :
    combine_SMPS_APS_sd log10 exp10
      [⟨Flag.aps, ct, tl, tu, some a, da⟩]
      [⟨Flag.smps, cf, fl, fu, some b, db⟩] true ig =
    some [⟨Flag.merged, ct, tl, tu,
      some (a * ((tu - tl) - (fu - fl)) / (tu - tl)
        + (a * ((fu - fl) / (tu - tl)) + b) / 2),
      some ((a * ((tu - tl) - (fu - fl)) / (tu - tl)
        + (a * ((fu - fl) / (tu - tl)) + b) / 2) / (log10 tu - log10 tl))⟩] := by
  have hov : tl < fu := h1.trans h2
  have hnogap : ¬ (fu < tl) := not_lt.mpr hov.le
  have hnoleft : ¬ (fl < tl) := not_lt.mpr h1.le
  have hflu : fl < tu := h2.trans h3
  simp [combine_SMPS_APS_sd, mergeBranch, mergeLoop, filterP, filterIdxP,
    enumFromN, colMax, colMin, colMinIdx, colMaxIdx, containedUpdate,
    updateRow, dropIdx, dropIdxFrom, sortByDpes, List.insertionSort,
    List.orderedInsert, calc_dXdlogd_from_dX, Option.bind, Option.map₂,
    hov, hnogap, hnoleft, hflu, h1, h2, h3]

/-- C3: in the single-containment geometry (smps bin `[fl, fu]` strictly
inside the single aps bin `[tl, tu]`), the merged count is
`t.count * (w_t - w_f) / w_t + (t.count * (w_f / w_t) + f.count) / 2` and
the aps bin's boundaries and center are unchanged. -/
theorem c3_single_containment_formula {α : Type} [LinearOrderedField α]
    [FloorRing α] (log10 exp10 : α → α) (cf ct fl fu tl tu a b : α)
    (da db : Option α) (ig : Bool)
    (h1 : tl < fl) (h2 : fl < fu) (h3 : fu < tu) :
    combine_SMPS_APS_sd log10 exp10
      [⟨Flag.aps, ct, tl, tu, some a, da⟩]
      [⟨Flag.smps, cf, fl, fu, some b, db⟩] true ig =
    some [⟨Flag.merged, ct, tl, tu,
      some (a * ((tu - tl) - (fu - fl)) / (tu - tl)
        + (a * ((fu - fl) / (tu - tl)) + b) / 2),
      some ((a * ((tu - tl) - (fu - fl)) / (tu - tl)
        + (a * ((fu - fl) / (tu - tl)) + b) / 2) / (log10 tu - log10 tl))⟩] :=
  combine_contained_eval log10 exp10 cf ct fl fu tl tu a b da db ig h1 h2 h3

/-- Witness for C3 at the spec's own scenario: target bin `[50, 150]` with
count `100`, fine bin `[80, 120]` with count `40`; the merged count formula
evaluates to `100`. -/
theorem c3_single_containment_formula_witness :
    (50 : ℚ) < 80 ∧ (80 : ℚ) < 120 ∧ (120 : ℚ) < 150 ∧
    combine_SMPS_APS_sd (fun _ => 0) (fun _ => 0)
      [⟨Flag.aps, 100, 50, 150, some 100, some 1⟩]
      [⟨Flag.smps, 100, 80, 120, some 40, some 1⟩] true true =
    some [⟨Flag.merged, 100, 50, 150,
      some ((100 : ℚ) * ((150 - 50) - (120 - 80)) / (150 - 50)
        + (100 * ((120 - 80) / (150 - 50)) + 40) / 2),
      some (((100 : ℚ) * ((150 - 50) - (120 - 80)) / (150 - 50)
        + (100 * ((120 - 80) / (150 - 50)) + 40) / 2) /
          ((fun (_ : ℚ) => (0 : ℚ)) 150 - (fun (_ : ℚ) => (0 : ℚ)) 50))⟩] ∧
    ((100 : ℚ) * ((150 - 50) - (120 - 80)) / (150 - 50)
        + (100 * ((120 - 80) / (150 - 50)) + 40) / 2) = 100 :=
  ⟨by decide, by decide, by decide,
   c3_single_containment_formula (fun _ => 0) (fun _ => 0) 100 100 80 120 50 150
     100 40 (some 1) (some 1) true (by decide) (by decide) (by decide),
   by norm_num⟩

/-- C1, counterexample: merging the fine bin `[80, 120]` with count `40`
into the target bin `[50, 150]` with count `100` (both spanning only the
diameter range `[50, 150]`) yields total count `100`, while the claim
demands the pre-merge total `140` over the same span: the merge averages
the two instruments over the shared width instead of summing. -/
theorem c1_merge_count_counterexample :
    (combine_SMPS_APS_sd (Real.logb 10) (fun x => (10 : ℝ) ^ x)
      [⟨Flag.aps, 100, 50, 150, some 100, some 1⟩]
      [⟨Flag.smps, 100, 80, 120, some 40, some 1⟩] true true).map sumDn =
      some 100 ∧
    sumDn ([⟨Flag.aps, 100, 50, 150, some 100, some 1⟩,
            ⟨Flag.smps, 100, 80, 120, some 40, some 1⟩] : List (Row ℝ)) = 140 ∧
    (100 : ℝ) ≠ 140 := by
  refine ⟨?_, by norm_num [sumDn, knowns], by norm_num⟩
  rw [combine_contained_eval (Real.logb 10) (fun x => (10 : ℝ) ^ x)
    100 100 80 120 50 150 100 40 (some 1) (some 1) true
    (by norm_num) (by norm_num) (by norm_num)]
  norm_num [sumDn, knowns]

/-- C1, amended: the overlap merge does not conserve the summed count; in
the single-containment geometry the total count after merging equals
`t.count + f.count - (f.count + t.count * (w_f / w_t)) / 2`: each
instrument's count survives in full over its exclusive width while the two
estimates over the shared width are averaged, not added. -/
theorem c1_merge_count_amended {α : Type} [LinearOrderedField α] [FloorRing α]
    (log10 exp10 : α → α) (cf ct fl fu tl tu a b : α) (da db : Option α) (ig : Bool)
    (h1 : tl < fl) (h2 : fl < fu) (h3 : fu < tu) :
    (combine_SMPS_APS_sd log10 exp10
      [⟨Flag.aps, ct, tl, tu, some a, da⟩]
      [⟨Flag.smps, cf, fl, fu, some b, db⟩] true ig).map sumDn =
    some (a + b - (b + a * ((fu - fl) / (tu - tl))) / 2) := by
  rw [combine_contained_eval log10 exp10 cf ct fl fu tl tu a b da db ig h1 h2 h3]
  have htw : tu - tl ≠ 0 := sub_ne_zero.mpr (h1.trans (h2.trans h3)).ne'
  simp [sumDn, knowns]
  field_simp
  ring

/-- Witness for the amended C1 at the spec's single-containment scenario. -/
theorem c1_merge_count_amended_witness :
    (50 : ℚ) < 80 ∧ (80 : ℚ) < 120 ∧ (120 : ℚ) < 150 ∧
    (combine_SMPS_APS_sd (fun _ => 0) (fun _ => 0)
      [⟨Flag.aps, 100, 50, 150, some 100, some 1⟩]
      [⟨Flag.smps, 100, 80, 120, some 40, some 1⟩] true true).map sumDn =
    some ((100 : ℚ) + 40 - (40 + 100 * ((120 - 80) / (150 - 50))) / 2) :=
  ⟨by decide, by decide, by decide,
   c1_merge_count_amended (fun _ => 0) (fun _ => 0) 100 100 80 120 50 150
     100 40 (some 1) (some 1) true (by decide) (by decide) (by decide)⟩

/-- C10: when two smps bins (counts `b1` then `b2`) are both strictly
contained in the same aps bin `[10, 30]` (count `a`), each merge assigns
the target count from the pre-loop snapshot, so the final count is exactly
the result of merging only the LAST smps bin into the original aps bin:
`b1` does not occur in the result. -/
theorem c10_snapshot_last_fine_bin_wins {α : Type} [LinearOrderedField α]
    [FloorRing α] (log10 exp10 : α → α) (a b1 b2 : α) (da d1 d2 : Option α)
    (ig : Bool) :
    combine_SMPS_APS_sd log10 exp10
      [⟨Flag.aps, 20, 10, 30, some a, da⟩]
      [⟨Flag.smps, 13, 12, 14, some b1, d1⟩, ⟨Flag.smps, 17, 16, 18, some b2, d2⟩]
      true ig =
    some [⟨Flag.merged, 20, 10, 30,
      some (a * ((30 - 10) - (18 - 16)) / (30 - 10)
        + (a * ((18 - 16) / (30 - 10)) + b2) / 2),
      some ((a * ((30 - 10) - (18 - 16)) / (30 - 10)
        + (a * ((18 - 16) / (30 - 10)) + b2) / 2) / (log10 30 - log10 10))⟩] := by
  simp +decide [combine_SMPS_APS_sd, mergeBranch, mergeLoop, filterP, filterIdxP,
    enumFromN, colMax, colMin, colMinIdx, colMaxIdx, containedUpdate,
    updateRow, dropIdx, dropIdxFrom, sortByDpes, List.insertionSort,
    List.orderedInsert, calc_dXdlogd_from_dX, Option.bind, Option.map₂]
  norm_num [mergeLoop, colMinIdx, colMaxIdx, filterIdxP, containedUpdate,
    updateRow, dropIdxFrom, List.insertionSort, List.orderedInsert, leDpes,
    Option.bind, Option.map₂, calc_dXdlogd_from_dX]
  simp +decide

/-- C2: a fine bin `[12, 38]` with count `7` intersecting three aps bins
(`[10,20]`, `[20,30]`, `[30,40]`, counts `1` each, plus `[40,50]` outside
its reach) completes WITHOUT any error: the loop has no branch for three
candidate bins, no aps bin is updated, the fine bin is dropped, and its
count disappears from the total (`11` before, `4` after). -/
theorem c2_unsupported_shape_silent_drop {α : Type} [LinearOrderedField α]
    [FloorRing α] (log10 exp10 : α → α) :
    combine_SMPS_APS_sd log10 exp10
      [⟨Flag.aps, 15, 10, 20, some 1, some 1⟩, ⟨Flag.aps, 25, 20, 30, some 1, some 1⟩,
       ⟨Flag.aps, 35, 30, 40, some 1, some 1⟩, ⟨Flag.aps, 45, 40, 50, some 1, some 1⟩]
      [⟨Flag.smps, 25, 12, 38, some 7, some 1⟩] true true =
    some [⟨Flag.aps, 15, 10, 20, some 1, some 1⟩, ⟨Flag.aps, 25, 20, 30, some 1, some 1⟩,
          ⟨Flag.aps, 35, 30, 40, some 1, some 1⟩, ⟨Flag.aps, 45, 40, 50, some 1, some 1⟩] ∧
    sumDn ([⟨Flag.aps, 15, 10, 20, some 1, some 1⟩, ⟨Flag.aps, 25, 20, 30, some 1, some 1⟩,
            ⟨Flag.aps, 35, 30, 40, some 1, some 1⟩, ⟨Flag.aps, 45, 40, 50, some 1, some 1⟩,
            ⟨Flag.smps, 25, 12, 38, some 7, some 1⟩] : List (Row α)) =
      sumDn ([⟨Flag.aps, 15, 10, 20, some 1, some 1⟩, ⟨Flag.aps, 25, 20, 30, some 1, some 1⟩,
              ⟨Flag.aps, 35, 30, 40, some 1, some 1⟩, ⟨Flag.aps, 45, 40, 50, some 1, some 1⟩] :
              List (Row α)) + 7 := by
  constructor
  · simp +decide [combine_SMPS_APS_sd, mergeBranch, mergeLoop, filterP, filterIdxP,
      enumFromN, colMax, colMin, colMinIdx, colMaxIdx,
      updateRow, dropIdx, dropIdxFrom, sortByDpes, List.insertionSort,
      List.orderedInsert, calc_dXdlogd_from_dX, Option.bind, Option.map₂]
    norm_num [mergeLoop, colMinIdx, colMaxIdx, filterIdxP,
      updateRow, dropIdxFrom, List.insertionSort, List.orderedInsert, leDpes,
      Option.bind, Option.map₂, calc_dXdlogd_from_dX]
  · simp [sumDn, knowns]
    ring

/-- C8, counterexample: combining a one-bin smps distribution with an empty
aps distribution does not return the smps distribution unchanged; the
builtin `min` over the empty `dpes_lower` column raises (model: `none`). -/
theorem c8_empty_input_counterexample :
    combine_SMPS_APS_sd (Real.logb 10) (fun x => (10 : ℝ) ^ x)
      ([] : List (Row ℝ)) [⟨Flag.smps, 100, 80, 120, some 40, some 1⟩]
      true true = none ∧
    (none : Option (List (Row ℝ))) ≠
      some [⟨Flag.smps, 100, 80, 120, some 40, some 1⟩] := by
  constructor
  · simp [combine_SMPS_APS_sd, colMax, colMin, Option.bind]
  · simp

/-- C8, amended: an empty input on either side makes `combine_SMPS_APS_sd`
fail (the builtin `max()` / `min()` of line 52 raises `ValueError` on an
empty sequence); there is no warning-and-pass-through path. -/
theorem c8_empty_input_amended {α : Type} [LinearOrderedField α] [FloorRing α]
    (log10 exp10 : α → α) (sd_aps sd_smps : List (Row α)) (mo ig : Bool) :
    combine_SMPS_APS_sd log10 exp10 ([] : List (Row α)) sd_smps mo ig = none ∧
    combine_SMPS_APS_sd log10 exp10 sd_aps ([] : List (Row α)) mo ig = none := by
  constructor
  · cases hc : colMax (fun r => r.dpes_upper)
      (sd_smps.map fun r => { r with flag := Flag.smps }) with
    | none => simp [combine_SMPS_APS_sd, hc, Option.bind]
    | some mx => simp [combine_SMPS_APS_sd, hc, colMin, Option.bind]
  · simp [combine_SMPS_APS_sd, colMax, Option.bind]


/-- Every frame sorted with `sortByDpes` is sorted (non-strictly) by the
`dpes` column. -/
theorem sorted_sortByDpes {α : Type} [LinearOrderedField α] (l : List (Row α)) :
    List.Sorted leDpes (sortByDpes l) :=
  List.sorted_insertionSort leDpes l

/-- A successful overlap-merge branch always returns a frame sorted by
`dpes` (lines 232-233 end with `sort_values`). -/
theorem mergeBranch_sorted {α : Type} [LinearOrderedField α]
    (sd out : List (Row α)) (h : mergeBranch sd = some out) :
    List.Sorted leDpes out := by
  unfold mergeBranch at h
  cases hmn : colMin (fun r => r.dpes_lower) (filterP (fun r => r.flag = Flag.aps) sd) with
  | none => rw [hmn] at h; simp at h
  | some mn =>
    rw [hmn] at h
    cases hmx : colMax (fun r => r.dpes_upper) (filterP (fun r => r.flag = Flag.smps) sd) with
    | none => rw [hmx] at h; simp at h
    | some mx =>
      rw [hmx] at h
      simp only [Option.bind_eq_bind, Option.some_bind] at h
      cases hml : mergeLoop
          (filterIdxP (fun r => r.flag = Flag.aps ∧ r.dpes_lower < mx) (enumFromN 0 sd))
          (filterIdxP (fun r => r.flag = Flag.smps ∧ r.dpes_upper > mn) (enumFromN 0 sd))
          sd with
      | none => rw [hml] at h; simp at h
      | some sd1 =>
        rw [hml] at h
        simp only [Option.some_bind, Option.pure_def, Option.some_inj] at h
        subst h
        exact List.sorted_insertionSort leDpes _

/-- C9, counterexample: with overlapping inputs but both flags disabled, the
combiner succeeds and returns the raw smps-then-aps concatenation, here with
centers `[100, 60]`: not ascending, never re-sorted. -/
theorem c9_sorted_counterexample :
    (combine_SMPS_APS_sd (Real.logb 10) (fun x => (10 : ℝ) ^ x)
      [⟨Flag.aps, 60, 50, 70, some 1, some 1⟩]
      [⟨Flag.smps, 100, 95, 110, some 1, some 1⟩] false false).map
      (fun l => l.map fun r => r.dpes) = some [100, 60] ∧
    ¬ ((100 : ℝ) < 60) := by
  constructor
  · have hng : ¬ ((110 : ℝ) < 50) := by norm_num
    simp [combine_SMPS_APS_sd, colMax, colMin, hng]
  · norm_num

/-- C9, amended: when the overlap-merge branch actually runs (overlapping
ranges and `merge_overlap` enabled), the returned frame is sorted
(non-strictly) ascending by `dpes`; when no branch runs the output is the
unsorted concatenation, and uniqueness of centers is nowhere enforced. -/
theorem c9_sorted_amended {α : Type} [LinearOrderedField α] [FloorRing α]
    (log10 exp10 : α → α) (sd_aps sd_smps out : List (Row α)) (ig : Bool) (mx mn : α)
    (hmx : colMax (fun r => r.dpes_upper)
      (sd_smps.map fun r => { r with flag := Flag.smps }) = some mx)
    (hmn : colMin (fun r => r.dpes_lower)
      (sd_aps.map fun r => { r with flag := Flag.aps }) = some mn)
    (hov : mn < mx)
    (h : combine_SMPS_APS_sd log10 exp10 sd_aps sd_smps true ig = some out) :
    List.Sorted leDpes out := by
  simp only [combine_SMPS_APS_sd] at h
  rw [hmx, hmn] at h
  have hng : ¬ (mx < mn) := not_lt.mpr hov.le
  simp only [Option.bind_eq_bind, Option.some_bind, hng, and_false, if_false,
    hov, and_true, if_true, Option.pure_def] at h
  cases hmb : mergeBranch ((sd_smps.map fun r => { r with flag := Flag.smps })
      ++ (sd_aps.map fun r => { r with flag := Flag.aps })) with
  | none => rw [hmb] at h; simp at h
  | some sd2 =>
    rw [hmb] at h
    simp only [Option.some_bind, Option.some_inj] at h
    subst h
    have hs := mergeBranch_sorted _ _ hmb
    unfold List.Sorted at hs ⊢
    rw [List.pairwise_map]
    refine hs.imp ?_
    intro a b hab
    show leDpes _ _
    unfold leDpes at hab ⊢
    split_ifs <;> exact hab

/-- Witness for the amended C9 at the single-containment overlap scenario
over `ℚ` (with placeholder logarithm functions, on which the merged counts
do not depend). -/
theorem c9_sorted_amended_witness :
    colMax (fun r => r.dpes_upper)
      (([⟨Flag.smps, 100, 80, 120, some 40, some 1⟩] : List (Row ℚ)).map
        fun r => { r with flag := Flag.smps }) = some 120 ∧
    colMin (fun r => r.dpes_lower)
      (([⟨Flag.aps, 100, 50, 150, some 100, some 1⟩] : List (Row ℚ)).map
        fun r => { r with flag := Flag.aps }) = some 50 ∧
    (50 : ℚ) < 120 ∧
    combine_SMPS_APS_sd (fun _ => 0) (fun _ => 0)
      [⟨Flag.aps, 100, 50, 150, some 100, some 1⟩]
      [⟨Flag.smps, 100, 80, 120, some 40, some 1⟩] true true =
      some [⟨Flag.merged, 100, 50, 150,
        some ((100 : ℚ) * ((150 - 50) - (120 - 80)) / (150 - 50)
          + (100 * ((120 - 80) / (150 - 50)) + 40) / 2),
        some (((100 : ℚ) * ((150 - 50) - (120 - 80)) / (150 - 50)
          + (100 * ((120 - 80) / (150 - 50)) + 40) / 2) /
            ((fun (_ : ℚ) => (0 : ℚ)) 150 - (fun (_ : ℚ) => (0 : ℚ)) 50))⟩] ∧
    List.Sorted leDpes
      [(⟨Flag.merged, 100, 50, 150,
        some ((100 : ℚ) * ((150 - 50) - (120 - 80)) / (150 - 50)
          + (100 * ((120 - 80) / (150 - 50)) + 40) / 2),
        some (((100 : ℚ) * ((150 - 50) - (120 - 80)) / (150 - 50)
          + (100 * ((120 - 80) / (150 - 50)) + 40) / 2) /
            ((fun (_ : ℚ) => (0 : ℚ)) 150 - (fun (_ : ℚ) => (0 : ℚ)) 50))⟩ : Row ℚ)] :=
  ⟨by decide, by decide, by decide,
   combine_contained_eval (fun _ => 0) (fun _ => 0) 100 100 80 120 50 150
     100 40 (some 1) (some 1) true (by decide) (by decide) (by decide),
   c9_sorted_amended (fun _ => 0) (fun _ => 0)
     [⟨Flag.aps, 100, 50, 150, some 100, some 1⟩]
     [⟨Flag.smps, 100, 80, 120, some 40, some 1⟩] _ true 120 50
     (by decide) (by decide) (by decide)
     (combine_contained_eval (fun _ => 0) (fun _ => 0) 100 100 80 120 50 150
       100 40 (some 1) (some 1) true (by decide) (by decide) (by decide))⟩

/-- Channel resolutions of the gap scenario (two smps bins with centers
spanning two decades, two aps bins likewise) both evaluate to `1`, so the
interpolation resolution (their float floor-averaged value) is `1`. -/
theorem gap_stage_resolution {α : Type} [LinearOrderedField α] [FloorRing α]
    (log10 : α → α)
    (hs : log10 1000 - log10 10 = 2) (ha : log10 2000000 - log10 20000 = 2)
    (n0 n1 n3 n4 d0 d1 d3 d4 : α) :
    get_interpol_resolution log10
      [⟨Flag.smps, 10, 5, 20, some n0, some d0⟩,
       ⟨Flag.smps, 1000, 160, 1600, some n1, some d1⟩]
      [⟨Flag.aps, 20000, 16000, 160000, some n3, some d3⟩,
       ⟨Flag.aps, 2000000, 1600000, 20000000, some n4, some d4⟩] = some 1 := by
  have hm1 : max (10 : α) 1000 = 1000 := max_eq_right (by norm_num)
  have hm2 : min (10 : α) 1000 = 10 := min_eq_left (by norm_num)
  have hm3 : max (20000 : α) 2000000 = 2000000 := max_eq_right (by norm_num)
  have hm4 : min (20000 : α) 2000000 = 20000 := min_eq_left (by norm_num)
  simp [get_interpol_resolution, get_channel_resolution, colMax, colMin,
    hm1, hm2, hm3, hm4, hs, ha]

/-- The one-decade gap `[1600, 16000]` at resolution `1` yields exactly one
bridging bin with boundaries `1600` and `16000`. -/
theorem gap_stage_boundaries {α : Type} [LinearOrderedField α] [FloorRing α]
    (log10 exp10 : α → α)
    (hd : log10 16000 - log10 1600 = 1) (he : exp10 (log10 1600) = 1600) :
    get_bin_boundaries_in_interval log10 exp10 (1600 : α) 16000 1 =
      some ([1600], [16000]) := by
  have hf : Int.fract (1 : α) = 0 := by rw [Int.fract_one]
  simp [get_bin_boundaries_in_interval, pyRound, hd, hf, List.range_succ,
    List.range_zero, he]

/-- Sorting the gap scenario frame places the bridging bin between the two
instruments. -/
theorem gap_stage_sort {α : Type} [LinearOrderedField α]
    (n0 n1 n3 n4 d0 d1 d3 d4 : α) :
    sortByDpes
      ([⟨Flag.smps, 10, 5, 20, some n0, some d0⟩,
        ⟨Flag.smps, 1000, 160, 1600, some n1, some d1⟩,
        ⟨Flag.aps, 20000, 16000, 160000, some n3, some d3⟩,
        ⟨Flag.aps, 2000000, 1600000, 20000000, some n4, some d4⟩,
        ⟨Flag.interpolated, (8800 : α), 1600, 16000, none, none⟩]) =
      [⟨Flag.smps, 10, 5, 20, some n0, some d0⟩,
       ⟨Flag.smps, 1000, 160, 1600, some n1, some d1⟩,
       ⟨Flag.interpolated, 8800, 1600, 16000, none, none⟩,
       ⟨Flag.aps, 20000, 16000, 160000, some n3, some d3⟩,
       ⟨Flag.aps, 2000000, 1600000, 20000000, some n4, some d4⟩] := by
  norm_num [sortByDpes, List.insertionSort, List.orderedInsert, leDpes]

/-- Density interpolation of the sorted gap scenario frame: the bridging
bin receives the `dpes`-linear interpolation between the two smoothed edge
anchors and every other density is unchanged. -/
theorem gap_stage_interpolate {α : Type} [LinearOrderedField α]
    (n0 n1 n3 n4 d0 d1 d3 d4 : α) :
    interpolate_dndlogd_gap
      [⟨Flag.smps, 10, 5, 20, some n0, some d0⟩,
       ⟨Flag.smps, 1000, 160, 1600, some n1, some d1⟩,
       ⟨Flag.interpolated, (8800 : α), 1600, 16000, none, none⟩,
       ⟨Flag.aps, 20000, 16000, 160000, some n3, some d3⟩,
       ⟨Flag.aps, 2000000, 1600000, 20000000, some n4, some d4⟩] 3 =
    some [⟨Flag.smps, 10, 5, 20, some n0, some d0⟩,
       ⟨Flag.smps, 1000, 160, 1600, some n1, some d1⟩,
       ⟨Flag.interpolated, (8800 : α), 1600, 16000, none,
         some ((d0 + d1) / 2 +
           ((d3 + d4) / 2 - (d0 + d1) / 2) * (8800 - 1000) / (20000 - 1000))⟩,
       ⟨Flag.aps, 20000, 16000, 160000, some n3, some d3⟩,
       ⟨Flag.aps, 2000000, 1600000, 20000000, some n4, some d4⟩] := by
  simp +decide [interpolate_dndlogd_gap, idxmaxP, idxminP, filterIdxP, enumFromN,
    argmaxFrom, argminFrom, sliceRows, sliceFrom, colMeanOpt, meanList, knowns,
    setDndlogdAt, updateRow, interpFill, interpFillGo,
    knownPts, lastK, writeDndlogdSlice, writeSliceFrom, length_updateRow]
  norm_num [updateRow, knowns, interpFillGo, knownPts, lastK, writeSliceFrom,
    meanList]
  ring_nf
  simp

/-- Full evaluation of the combiner on the gap scenario, for any logarithm
and power functions satisfying the four identities the control flow needs:
after the gap branch, the `dn` of EVERY row — the two instrument rows
included — has been reassigned to `dndlogd * (log10 upper - log10 lower)`
(line 134), and instrument densities are unchanged. -/
theorem gap_scenario_eval {α : Type} [LinearOrderedField α] [FloorRing α]
    (log10 exp10 : α → α) (d0 d1 d3 d4 n0 n1 n3 n4 : α)
    (hs : log10 1000 - log10 10 = 2)
    (ha : log10 2000000 - log10 20000 = 2)
    (hd : log10 16000 - log10 1600 = 1)
    (he : exp10 (log10 1600) = 1600) :
    combine_SMPS_APS_sd log10 exp10
      [⟨Flag.aps, 20000, 16000, 160000, some n3, some d3⟩,
       ⟨Flag.aps, 2000000, 1600000, 20000000, some n4, some d4⟩]
      [⟨Flag.smps, 10, 5, 20, some n0, some d0⟩,
       ⟨Flag.smps, 1000, 160, 1600, some n1, some d1⟩] true true =
    some [⟨Flag.smps, 10, 5, 20, some (d0 * (log10 20 - log10 5)), some d0⟩,
          ⟨Flag.smps, 1000, 160, 1600, some (d1 * (log10 1600 - log10 160)), some d1⟩,
          ⟨Flag.interpolated, 8800, 1600, 16000,
            some ((d0 + d1) / 2 +
              ((d3 + d4) / 2 - (d0 + d1) / 2) * (8800 - 1000) / (20000 - 1000)),
            some ((d0 + d1) / 2 +
              ((d3 + d4) / 2 - (d0 + d1) / 2) * (8800 - 1000) / (20000 - 1000))⟩,
          ⟨Flag.aps, 20000, 16000, 160000,
            some (d3 * (log10 160000 - log10 16000)), some d3⟩,
          ⟨Flag.aps, 2000000, 1600000, 20000000,
            some (d4 * (log10 20000000 - log10 1600000)), some d4⟩] := by
  have hmx : max (20 : α) 1600 = 1600 := max_eq_right (by norm_num)
  have hmn : min (16000 : α) 1600000 = 16000 := min_eq_left (by norm_num)
  have hgap : (1600 : α) < 16000 := by norm_num
  have hnm : ¬ ((16000 : α) < 1600) := by norm_num
  have h88 : ((1600 : α) + 16000) / 2 = 8800 := by norm_num
  simp [h88, combine_SMPS_APS_sd, gapBranch, colMax, colMin, hmx, hmn, hgap, hnm,
    gap_stage_resolution log10 hs ha n0 n1 n3 n4 d0 d1 d3 d4,
    gap_stage_boundaries log10 exp10 hd he, interpolatedBins,
    gap_stage_sort n0 n1 n3 n4 d0 d1 d3 d4,
    gap_stage_interpolate n0 n1 n3 n4 d0 d1 d3 d4,
    calc_dXdlogd_from_dX, hd]

/-- `log10 x - log10 y` from the value of the ratio `x / y`, over `ℝ`. -/
theorem logb10_sub_of_ratio (x y q : ℝ) (hx : x ≠ 0) (hy : y ≠ 0)
    (hq : x / y = q) :
    Real.logb 10 x - Real.logb 10 y = Real.logb 10 q := by
  rw [← hq, Real.logb_div hx hy]

/-- `log10 100 = 2` over `ℝ`. -/
theorem logb10_hundred : Real.logb 10 100 = 2 := by
  rw [show (100 : ℝ) = 10 ^ (2 : ℕ) by norm_num, Real.logb_pow,
    Real.logb_self_eq_one (by norm_num)]
  norm_num

/-- `log10 10 = 1` over `ℝ`. -/
theorem logb10_ten : Real.logb 10 10 = 1 :=
  Real.logb_self_eq_one (by norm_num)



/-- C6, amended: on the gap scenario over `ℝ` with the genuine base-10
logarithm, the gap-fill branch recomputes `dn` for EVERY bin — the
instrument bins included — as `dndlogd * (log10 upper - log10 lower)`
(line 134 assigns the whole column), while the `dndlogd` of every
instrument bin is unchanged; an instrument bin therefore keeps its count
only when that count already equals its density times its own log-width. -/
theorem c6_gap_recompute_amended (d0 d1 d3 d4 n0 n1 n3 n4 : ℝ) :
    combine_SMPS_APS_sd (Real.logb 10) (fun x => (10 : ℝ) ^ x)
      [⟨Flag.aps, 20000, 16000, 160000, some n3, some d3⟩,
       ⟨Flag.aps, 2000000, 1600000, 20000000, some n4, some d4⟩]
      [⟨Flag.smps, 10, 5, 20, some n0, some d0⟩,
       ⟨Flag.smps, 1000, 160, 1600, some n1, some d1⟩] true true =
    some [⟨Flag.smps, 10, 5, 20,
            some (d0 * (Real.logb 10 20 - Real.logb 10 5)), some d0⟩,
          ⟨Flag.smps, 1000, 160, 1600,
            some (d1 * (Real.logb 10 1600 - Real.logb 10 160)), some d1⟩,
          ⟨Flag.interpolated, 8800, 1600, 16000,
            some ((d0 + d1) / 2 +
              ((d3 + d4) / 2 - (d0 + d1) / 2) * (8800 - 1000) / (20000 - 1000)),
            some ((d0 + d1) / 2 +
              ((d3 + d4) / 2 - (d0 + d1) / 2) * (8800 - 1000) / (20000 - 1000))⟩,
          ⟨Flag.aps, 20000, 16000, 160000,
            some (d3 * (Real.logb 10 160000 - Real.logb 10 16000)), some d3⟩,
          ⟨Flag.aps, 2000000, 1600000, 20000000,
            some (d4 * (Real.logb 10 20000000 - Real.logb 10 1600000)), some d4⟩] := by
  have hs : Real.logb 10 1000 - Real.logb 10 10 = 2 :=
    (logb10_sub_of_ratio 1000 10 100 (by norm_num) (by norm_num) (by norm_num)).trans
      logb10_hundred
  have ha : Real.logb 10 2000000 - Real.logb 10 20000 = 2 :=
    (logb10_sub_of_ratio 2000000 20000 100 (by norm_num) (by norm_num)
      (by norm_num)).trans logb10_hundred
  have hd : Real.logb 10 16000 - Real.logb 10 1600 = 1 :=
    (logb10_sub_of_ratio 16000 1600 10 (by norm_num) (by norm_num)
      (by norm_num)).trans logb10_ten
  have he : (10 : ℝ) ^ Real.logb 10 1600 = 1600 :=
    Real.rpow_logb (by norm_num) (by norm_num) (by norm_num)
  exact gap_scenario_eval (Real.logb 10) (fun x => (10 : ℝ) ^ x)
    d0 d1 d3 d4 n0 n1 n3 n4 hs ha hd he

/-- C6, counterexample: the smps bin `[160, 1600]` enters with count `3` and
density `1` and leaves the gap-fill branch with count `1` (density times its
own one-decade log-width), and the smps bin `[5, 20]` enters with count `5`
and density `0` and leaves with count `0`: instrument bins outside the gap
do not keep their counts bit-identically. -/
theorem c6_gap_recompute_counterexample :
    combine_SMPS_APS_sd (Real.logb 10) (fun x => (10 : ℝ) ^ x)
      [⟨Flag.aps, 20000, 16000, 160000, some 2, some 0⟩,
       ⟨Flag.aps, 2000000, 1600000, 20000000, some 4, some 0⟩]
      [⟨Flag.smps, 10, 5, 20, some 5, some 0⟩,
       ⟨Flag.smps, 1000, 160, 1600, some 3, some 1⟩] true true =
    some [⟨Flag.smps, 10, 5, 20, some 0, some 0⟩,
          ⟨Flag.smps, 1000, 160, 1600, some 1, some 1⟩,
          ⟨Flag.interpolated, 8800, 1600, 16000, some (28 / 95), some (28 / 95)⟩,
          ⟨Flag.aps, 20000, 16000, 160000, some 0, some 0⟩,
          ⟨Flag.aps, 2000000, 1600000, 20000000, some 0, some 0⟩] ∧
    (1 : ℝ) ≠ 3 ∧ (0 : ℝ) ≠ 5 := by
  refine ⟨?_, by norm_num, by norm_num⟩
  have hw : Real.logb 10 1600 - Real.logb 10 160 = 1 :=
    (logb10_sub_of_ratio 1600 160 10 (by norm_num) (by norm_num)
      (by norm_num)).trans logb10_ten
  have hs : Real.logb 10 1000 - Real.logb 10 10 = 2 :=
    (logb10_sub_of_ratio 1000 10 100 (by norm_num) (by norm_num) (by norm_num)).trans
      logb10_hundred
  have ha : Real.logb 10 2000000 - Real.logb 10 20000 = 2 :=
    (logb10_sub_of_ratio 2000000 20000 100 (by norm_num) (by norm_num)
      (by norm_num)).trans logb10_hundred
  have hd : Real.logb 10 16000 - Real.logb 10 1600 = 1 :=
    (logb10_sub_of_ratio 16000 1600 10 (by norm_num) (by norm_num)
      (by norm_num)).trans logb10_ten
  have he : (10 : ℝ) ^ Real.logb 10 1600 = 1600 :=
    Real.rpow_logb (by norm_num) (by norm_num) (by norm_num)
  have h := gap_scenario_eval (Real.logb 10) (fun x => (10 : ℝ) ^ x)
    0 1 0 0 5 3 2 4 hs ha hd he
  rw [h]
  norm_num [hw]


end ApsSmps
